import Mathlib

/-!
Verification development for the pva OpenAPI linter.

The file shallowly embeds the repository's result pipeline:
`runInDirectory`, the descriptor check inside `lintFile` and the
`formatResults` renderer from `source/index.ts`, the CLI front end's
per-file error handling and exit-code determination, the default
configuration from `source/config.ts`, and the configuration deep
merge performed by `lintFile`.

Modelling conventions, used throughout:
* The process working directory is passed around as an explicit
  `String` state; a JavaScript promise that may reject is an
  `Except String` value paired with the state it leaves behind.
* `Array.prototype.sort` with a consistent comparator is, per the
  ECMAScript specification, a stable sort; it is embedded as
  `List.insertionSort` over the corresponding total preorder (the
  output of a stable sort for a total preorder is unique, so any
  stable sort is a faithful model).
* `string-width` is modelled as `String.length` (it returns `0` for a
  non-string argument such as `undefined`, which the model reflects
  in `lineWidthOf`); `chalk` styling and `log-symbols` are embedded
  as the literal ANSI sequences they emit in color mode.
* `String.prototype.repeat` throws a `RangeError` for a negative
  count, so the rendering functions are fallible (`Except String`):
  `formatLine` is called on hint and info messages although
  `maxMessageWidth` is accumulated over error and warning messages
  only, and the throw that results when a hint or info message is the
  widest propagates out of `formatResults`.
-/

namespace Pva

/-- Embedding of `runInDirectory` (source/index.ts lines 686-692).
`process.cwd()` is read into `originalWorkingDirectory`, the process
changes into `cwd`, and the callback runs there.  If the callback
resolves, `process.chdir(originalWorkingDirectory)` runs and the value
is returned; if it rejects, the rejection propagates immediately and
the restoring `chdir` never runs, so the state is whatever directory
the callback left the process in. -/
def runInDirectory {α : Type} (cwd : String)
    (callback : String → Except String α × String) (state : String) :
    Except String α × String :=
  let originalWorkingDirectory := state
  match callback cwd with
  | (Except.ok result, _) => (Except.ok result, originalWorkingDirectory)
  | (Except.error e, s2) => (Except.error e, s2)

/-- One lint message (source/index.ts, `LintMessage`). -/
structure LintMessage where
  path : List String
  message : String
  rule : String
  line : Nat
deriving DecidableEq

/-- One per-file lint result (source/index.ts, `Result`); the four
severity buckets are optional fields. -/
structure Result where
  version : String
  errors : Option (List LintMessage) := none
  warnings : Option (List LintMessage) := none
  infos : Option (List LintMessage) := none
  hints : Option (List LintMessage) := none
deriving DecidableEq

/-- Model of the `string-width` package on the plain ASCII strings the
formatter builds. -/
def stringWidth (s : String) : Nat := s.length

/-- The message of the `RangeError` thrown by `String.prototype.repeat`
when its count is negative. -/
def rangeErrorMessage : String := "RangeError: Invalid count value"

/-- JavaScript `s.repeat(count)`: throws a `RangeError` for a negative
count, otherwise returns `count` copies of `s`. -/
def jsRepeat (s : String) (count : Int) : Except String String :=
  if count < 0 then Except.error rangeErrorMessage
  else Except.ok (String.join (List.replicate count.toNat s))

/-- ANSI wrapping emitted by `chalk.grey`. -/
def chalkGrey (s : String) : String := "\x1b[90m" ++ s ++ "\x1b[39m"

/-- ANSI wrapping emitted by `chalk.red`. -/
def chalkRed (s : String) : String := "\x1b[31m" ++ s ++ "\x1b[39m"

/-- ANSI wrapping emitted by `chalk.yellow`. -/
def chalkYellow (s : String) : String := "\x1b[33m" ++ s ++ "\x1b[39m"

/-- ANSI wrapping emitted by `chalk.cyan`. -/
def chalkCyan (s : String) : String := "\x1b[36m" ++ s ++ "\x1b[39m"

/-- ANSI wrapping emitted by `chalk.underline`. -/
def chalkUnderline (s : String) : String := "\x1b[4m" ++ s ++ "\x1b[24m"

/-- The `log-symbols` table, keyed by the `type` string that
`formatLine` receives. -/
def logSymbols : String → String
  | "info" => "\x1b[34mℹ\x1b[39m"
  | "success" => "\x1b[32m✔\x1b[39m"
  | "warning" => "\x1b[33m⚠\x1b[39m"
  | "error" => "\x1b[31m✖\x1b[39m"
  | _ => ""

/-- Model of the `plur` package on the regular nouns used by the
statistics section (hint, info, warning, error). -/
def plur (word : String) (count : Nat) : String :=
  if count = 1 then word else word ++ "s"

/-- Ascending comparison on message line numbers: the total preorder
induced by the comparator `numberSortAscending(a.line, b.line)`. -/
def lineLeP (a b : LintMessage) : Prop := a.line ≤ b.line

instance : DecidableRel lineLeP := fun a b => Nat.decLe a.line b.line

instance : IsTotal LintMessage lineLeP := ⟨fun a b => Nat.le_total a.line b.line⟩

instance : IsTrans LintMessage lineLeP := ⟨fun _ _ _ hab hbc => Nat.le_trans hab hbc⟩

/-- The stable ascending sort `bucket.sort((a, b) => numberSortAscending(a.line, b.line))`
applied to each severity bucket (source/index.ts lines 770-776). -/
def sortByLine (l : List LintMessage) : List LintMessage :=
  List.insertionSort lineLeP l

/-- A lint result after the formatter's normalisation step: all four
buckets present and sorted by line. -/
structure NResult where
  version : String
  errors : List LintMessage
  warnings : List LintMessage
  infos : List LintMessage
  hints : List LintMessage
deriving DecidableEq

/-- The value produced for one file by the destructuring-with-defaults
and bucket sorting at source/index.ts lines 770-776. -/
def normalizeResult (r : Result) : NResult :=
  { version := r.version
    errors := sortByLine (r.errors.getD [])
    warnings := sortByLine (r.warnings.getD [])
    infos := sortByLine (r.infos.getD [])
    hints := sortByLine (r.hints.getD []) }

/-- Normalisation of the whole run (the `results.map` at
source/index.ts lines 770-776). -/
def normalizeAll (results : List (String × Result)) : List (String × NResult) :=
  results.map (fun p => (p.1, normalizeResult p.2))

/-- State of one input `Result` object after `formatResults` returns.
`Array.prototype.sort` sorts in place, so every bucket array that was
present on the input object has been reordered ascending by line; an
absent bucket only received a fresh default `[]` in the destructuring
pattern, so it stays absent on the input object, and `version` is
copied, not written. -/
def effectResult (r : Result) : Result :=
  { version := r.version
    errors := r.errors.map sortByLine
    warnings := r.warnings.map sortByLine
    infos := r.infos.map sortByLine
    hints := r.hints.map sortByLine }

/-- State of the whole input list after `formatResults` returns (the
pairs and their order are untouched; the `Result` objects' arrays have
been sorted in place). -/
def formatResultsEffect (results : List (String × Result)) :
    List (String × Result) :=
  results.map (fun p => (p.1, effectResult p.2))

/-- Run-wide error total (the `totalErrors +=` loop). -/
def totalErrors (rs : List (String × NResult)) : Nat :=
  rs.foldl (fun acc p => acc + p.2.errors.length) 0

/-- Run-wide warning total. -/
def totalWarnings (rs : List (String × NResult)) : Nat :=
  rs.foldl (fun acc p => acc + p.2.warnings.length) 0

/-- Run-wide info total. -/
def totalInfos (rs : List (String × NResult)) : Nat :=
  rs.foldl (fun acc p => acc + p.2.infos.length) 0

/-- Run-wide hint total. -/
def totalHints (rs : List (String × NResult)) : Nat :=
  rs.foldl (fun acc p => acc + p.2.hints.length) 0

/-- The aggregate `totalErrors + totalWarnings + totalInfos + totalHints`
tested against zero at source/index.ts line 797. -/
def totalMessages (rs : List (String × NResult)) : Nat :=
  totalErrors rs + totalWarnings rs + totalInfos rs + totalHints rs

/-- Width contribution `stringWidth(lastItem(bucket)?.line.toString())`
of one bucket: `last-item` of an empty array is `undefined`, the
optional chain then yields `undefined`, and `string-width` returns `0`
for a non-string argument. -/
def lineWidthOf (l : List LintMessage) : Nat :=
  match l.getLast? with
  | none => 0
  | some m => stringWidth (toString m.line)

/-- The `maxLineWidth` accumulation loop (source/index.ts lines 784-790). -/
def maxLineWidthOf (rs : List (String × NResult)) : Nat :=
  rs.foldl
    (fun acc p =>
      Nat.max
        (Nat.max
          (Nat.max (Nat.max (lineWidthOf p.2.errors) (lineWidthOf p.2.warnings))
            (lineWidthOf p.2.infos))
          (lineWidthOf p.2.hints))
        acc)
    0

/-- The `maxMessageWidth` accumulation loop over `[...errors, ...warnings]`
(source/index.ts lines 792-794). -/
def maxMessageWidthOf (rs : List (String × NResult)) : Nat :=
  rs.foldl
    (fun acc p =>
      (p.2.errors ++ p.2.warnings).foldl
        (fun a m => Nat.max (stringWidth m.message) a) acc)
    0

/-- Embedding of `formatLine` (source/index.ts lines 748-755).  The
template literal evaluates left to right, so the line-number padding
`" ".repeat(maxLineWidth - stringWidth(line.toString()))` runs first
and the message padding
`" ".repeat(maxMessageWidth - stringWidth(message))` second; either
repeat throws a `RangeError` when its count is negative, which happens
for every hint or info message wider than all error and warning
messages (the only ones `maxMessageWidth` accumulates). -/
def formatLine (symbolType : String) (message rule : String) (line : Nat)
    (maxLineWidth maxMessageWidth : Nat) : Except String String :=
  match jsRepeat " " ((maxLineWidth : Int) - (stringWidth (toString line) : Int)) with
  | Except.error e => Except.error e
  | Except.ok linePad =>
    match jsRepeat " " ((maxMessageWidth : Int) - (stringWidth message : Int)) with
    | Except.error e => Except.error e
    | Except.ok messagePad =>
      Except.ok (logSymbols symbolType ++ " " ++ linePad ++ chalkGrey (toString line)
        ++ " " ++ message ++ messagePad ++ " " ++ chalkGrey rule)

/-- The comparator passed to `results.sort` (source/index.ts lines
801-816): nested equality tests on the bucket sizes with descending
subtraction comparisons. -/
def fileComparator (a b : NResult) : Int :=
  if a.errors.length = b.errors.length then
    if a.warnings.length = b.warnings.length then
      if a.infos.length = b.infos.length then
        (b.hints.length : Int) - (a.hints.length : Int)
      else (b.infos.length : Int) - (a.infos.length : Int)
    else (b.warnings.length : Int) - (a.warnings.length : Int)
  else (b.errors.length : Int) - (a.errors.length : Int)

/-- The total preorder "sorts no later than" induced by `fileComparator`:
`a` may precede `b` exactly when the comparator is nonpositive. -/
def fileLeP (a b : String × NResult) : Prop := fileComparator a.2 b.2 ≤ 0

instance : DecidableRel fileLeP :=
  fun a b => inferInstanceAs (Decidable (fileComparator a.2 b.2 ≤ 0))

instance : IsTotal (String × NResult) fileLeP :=
  ⟨by
    intro a b
    simp only [fileLeP, fileComparator]
    split_ifs <;> omega⟩

instance : IsTrans (String × NResult) fileLeP :=
  ⟨by
    intro a b c hab hbc
    simp only [fileLeP, fileComparator] at hab hbc ⊢
    split_ifs at hab hbc ⊢ <;> omega⟩

/-- The stable `results.sort(comparator)` over per-file blocks. -/
def sortFiles (rs : List (String × NResult)) : List (String × NResult) :=
  List.insertionSort fileLeP rs

/-- Size 4-tuple (errors, warnings, infos, hints) of one block. -/
def countsOf (r : NResult) : Nat × Nat × Nat × Nat :=
  (r.errors.length, r.warnings.length, r.infos.length, r.hints.length)

/-- Descending lexicographic comparison of two size 4-tuples: more
errors first, ties broken by more warnings, then more infos, then more
hints. -/
def lexGe (a b : Nat × Nat × Nat × Nat) : Prop :=
  b.1 < a.1 ∨ (b.1 = a.1 ∧
    (b.2.1 < a.2.1 ∨ (b.2.1 = a.2.1 ∧
      (b.2.2.1 < a.2.2.1 ∨ (b.2.2.1 = a.2.2.1 ∧ b.2.2.2 ≤ a.2.2.2)))))

/-- The `bucket.map(({message, rule, line}) => formatLine({...}))`
rendering of one severity bucket; `Array.prototype.map` evaluates left
to right and the first throw propagates. -/
def renderBucket (symbolType : String) (maxLineWidth maxMessageWidth : Nat)
    (l : List LintMessage) : Except String (List String) :=
  l.mapM (fun m => formatLine symbolType m.message m.rule m.line maxLineWidth maxMessageWidth)

/-- The message lines of one file's block, in source order: hints,
then infos, then warnings, then errors (source/index.ts lines 823-854;
hints and infos both render with the `info` symbol).  The array
literal's spreads evaluate in that order, so a throw while rendering an
earlier bucket preempts the later ones. -/
def blockLines (maxLineWidth maxMessageWidth : Nat) (r : NResult) :
    Except String (List String) :=
  match renderBucket "info" maxLineWidth maxMessageWidth r.hints with
  | Except.error e => Except.error e
  | Except.ok hintLines =>
    match renderBucket "info" maxLineWidth maxMessageWidth r.infos with
    | Except.error e => Except.error e
    | Except.ok infoLines =>
      match renderBucket "warning" maxLineWidth maxMessageWidth r.warnings with
      | Except.error e => Except.error e
      | Except.ok warningLines =>
        match renderBucket "error" maxLineWidth maxMessageWidth r.errors with
        | Except.error e => Except.error e
        | Except.ok errorLines =>
          Except.ok (hintLines ++ infoLines ++ warningLines ++ errorLines)

/-- One file's rendered block: underlined filename, newline, the joined
message lines, trailing newline (the template literal at
source/index.ts lines 822-855). -/
def blockString (maxLineWidth maxMessageWidth : Nat) (p : String × NResult) :
    Except String String :=
  match blockLines maxLineWidth maxMessageWidth p.2 with
  | Except.error e => Except.error e
  | Except.ok lines =>
    Except.ok (chalkUnderline p.1 ++ "\n" ++ String.intercalate "\n" lines ++ "\n")

/-- The `statistics` array (source/index.ts lines 857-873): pushed in
the fixed order hints, infos, warnings, errors, each entry only when
its total is positive, coloured and pluralised. -/
def statisticsList (hintsCount infosCount warningsCount errorsCount : Nat) :
    List String :=
  (if hintsCount > 0 then
    [chalkCyan (toString hintsCount ++ " " ++ plur "hint" hintsCount)] else [])
  ++ (if infosCount > 0 then
    [chalkCyan (toString infosCount ++ " " ++ plur "info" infosCount)] else [])
  ++ (if warningsCount > 0 then
    [chalkYellow (toString warningsCount ++ " " ++ plur "warning" warningsCount)] else [])
  ++ (if errorsCount > 0 then
    [chalkRed (toString errorsCount ++ " " ++ plur "error" errorsCount)] else [])

/-- The output accumulated before the statistics section: the initial
`"\n"`, the iTerm escape added when stdout is an interactive terminal
(passed in here as `ttyEscape`, empty otherwise), and the sorted
per-file blocks joined with `"\n"`; the first `RangeError` thrown while
rendering a block propagates. -/
def formatBody (ttyEscape : String) (rs : List (String × NResult)) :
    Except String String :=
  match (sortFiles rs).mapM (blockString (maxLineWidthOf rs) (maxMessageWidthOf rs)) with
  | Except.error e => Except.error e
  | Except.ok blocks =>
    Except.ok ("\n" ++ ttyEscape ++ String.intercalate "\n" blocks)

/-- Embedding of `formatResults` (source/index.ts lines 757-880).
`ttyEscape` stands for the `ansiEscapes.iTerm.setCwd()` string appended
when `process.stdout.isTTY && !process.env.CI`, and is empty otherwise;
every theorem below holds for an arbitrary value of it.  The zero-total
early return happens before any rendering; afterwards a `RangeError`
thrown by the block rendering propagates out of the function, and the
statistics section (whose construction cannot throw) is appended only
to a successfully rendered body. -/
def formatResults (ttyEscape : String) (results : List (String × Result)) :
    Except String String :=
  let rs := normalizeAll results
  if totalMessages rs = 0 then Except.ok ""
  else
    match formatBody ttyEscape rs with
    | Except.error e => Except.error e
    | Except.ok body =>
      let stats := statisticsList (totalHints rs) (totalInfos rs) (totalWarnings rs) (totalErrors rs)
      if stats.isEmpty then Except.ok body
      else Except.ok (body ++ "\n" ++ String.intercalate "\n" stats)

/-- Generic JSON-like tree, the shape of a parsed document and of a
configuration object (the `JsonObject` values of the source). -/
inductive Json where
  | null : Json
  | bool : Bool → Json
  | num : Int → Json
  | str : String → Json
  | arr : List Json → Json
  | obj : List (String × Json) → Json

/-- First-match association lookup on an object's field list (JavaScript
property access on a parsed object; parsed objects have unique keys). -/
def lookupF (fields : List (String × Json)) (key : String) : Option Json :=
  match fields with
  | [] => none
  | (k, v) :: rest => if k = key then some v else lookupF rest key

/-- JavaScript property access `value[key]`: a field lookup on objects,
`undefined` (here `none`) on every other value. -/
def Json.get : Json → String → Option Json
  | Json.obj fields, key => lookupF fields key
  | _, _ => none

/-- JavaScript truthiness of a possibly-`undefined` value. -/
def truthy : Option Json → Bool
  | none => false
  | some Json.null => false
  | some (Json.bool b) => b
  | some (Json.num n) => n != 0
  | some (Json.str s) => s != ""
  | some (Json.arr _) => true
  | some (Json.obj _) => true

/-- JavaScript strict equality `value === s` against a string literal. -/
def strictEqString : Option Json → String → Bool
  | some (Json.str s), t => s = t
  | _, _ => false

/-- The exact message of the error thrown by `lintFile` when the parsed
document has neither descriptor (source/index.ts line 729); the CLI
recognises auto-discovered non-spec files by this very string. -/
def descriptorMissingMessage : String :=
  "Neither a `openapi` property nor a `swagger` property with the value of \"2.0\" was found"

/-- The message of the error thrown by `parseFileContents` for an
unsupported file extension (source/index.ts line 683). -/
def unableToParseMessage : String := "Unable to parse file"

/-- Embedding of `parseFileContents` (source/index.ts lines 672-684).
The two external parsers are passed in as fallible functions and the
extension (computed by `path.extname(filepath).slice(1)` in the source)
as a string. -/
def parseFileContents (parseJsonF parseYamlF : String → Except String Json)
    (contents : String) (fileExtension : String) : Except String Json :=
  if fileExtension = "json" then parseJsonF contents
  else if fileExtension = "yaml" ∨ fileExtension = "yml" then parseYamlF contents
  else Except.error unableToParseMessage

/-- The remainder of `lintFile` after parsing (source/index.ts lines
728-745): the descriptor check `!(data.openapi || data.swagger === "2.0")`
throws the descriptor-missing error; otherwise the merged-config engine
pipeline (passed in as `runEngines`) produces the result. -/
def lintFileAfterParse (data : Json)
    (runEngines : Json → Except String Result) : Except String Result :=
  if !(truthy (Json.get data "openapi") || strictEqString (Json.get data "swagger") "2.0") then
    Except.error descriptorMissingMessage
  else runEngines data

/-- The CLI's per-file `pMap` callback (src/unnamed/part_000 lines
71-81): a resolved lint contributes `(file, result)`; a rejected one is
skipped (`pMapSkip`, here `none`), and its message is logged in red
unless the run is in auto-discovery mode and the message is exactly the
descriptor-missing one.  The first component is what gets logged, the
second what enters the aggregated results. -/
def cliProcessFile (isAutoDetectedFiles : Bool) (file : String)
    (outcome : Except String Result) : Option String × Option (String × Result) :=
  match outcome with
  | Except.ok result => (none, some (file, result))
  | Except.error msg =>
    (if !(isAutoDetectedFiles && msg == descriptorMissingMessage) then
      some (chalkRed msg)
    else none,
    none)

/-- The CLI's exit status (src/unnamed/part_000 lines 54-94): `2` when
the validated configuration is invalid (before any file is processed),
`2` when no file was successfully linted, `1` when some linted file has
a nonempty `errors` bucket, `0` otherwise. -/
def cliExitCode (configInvalid : Bool) (results : List (String × Result)) : Nat :=
  if configInvalid then 2
  else if results.length = 0 then 2
  else if results.any (fun p => 0 < (p.2.errors.getD []).length) then 1
  else 0

mutual

/-- Deep merge of two values as performed by the `merge-options`
package at source/index.ts line 732: when both sides are plain objects
the merge recurses key by key, otherwise the override value wins
(arrays and scalars are replaced whole). -/
def mergeVal : Json → Json → Json
  | Json.obj af, Json.obj bf =>
      Json.obj (mergeInto af bf ++ bf.filter (fun kv => (lookupF af kv.1).isNone))
  | _, b => b

/-- The target-keys pass of the deep merge: every field of the target
keeps its position; a field also present in the override is replaced by
the merge of the two values. -/
def mergeInto : List (String × Json) → List (String × Json) → List (String × Json)
  | [], _ => []
  | (k, va) :: rest, bf =>
      (k, match lookupF bf k with
          | some vb => mergeVal va vb
          | none => va) :: mergeInto rest bf

end

/-- The field list of the built-in default configuration, translated
from `source/config.ts`. -/
def defaultConfigFields : List (String × Json) := [
  ("shared", Json.obj [
    ("operations", Json.obj [
      ("no_operation_id", Json.str "warning"),
      ("operation_id_case_convention", Json.arr [Json.str "off", Json.str "lower_camel_case"]),
      ("no_summary", Json.str "warning"),
      ("parameter_order", Json.str "error"),
      ("undefined_tag", Json.str "error"),
      ("unused_tag", Json.str "error"),
      ("operation_id_naming_convention", Json.str "off"),
      ("no_array_responses", Json.str "off")]),
    ("pagination", Json.obj [
      ("pagination_style", Json.str "error")]),
    ("parameters", Json.obj [
      ("no_parameter_description", Json.str "hint"),
      ("param_name_case_convention", Json.arr [Json.str "off"]),
      ("invalid_type_format_pair", Json.str "error"),
      ("content_type_parameter", Json.str "error"),
      ("accept_type_parameter", Json.str "error"),
      ("authorization_parameter", Json.str "error"),
      ("required_param_has_default", Json.str "error")]),
    ("paths", Json.obj [
      ("missing_path_parameter", Json.str "error"),
      ("duplicate_path_parameter", Json.str "error"),
      ("paths_case_convention", Json.arr [Json.str "off"])]),
    ("responses", Json.obj [
      ("inline_response_schema", Json.str "off")]),
    ("security_definitions", Json.obj [
      ("unused_security_schemes", Json.str "error"),
      ("unused_security_scopes", Json.str "error")]),
    ("security", Json.obj [
      ("invalid_non_empty_security_array", Json.str "error")]),
    ("schemas", Json.obj [
      ("invalid_type_format_pair", Json.str "off"),
      ("snake_case_only", Json.str "off"),
      ("no_schema_description", Json.str "hint"),
      ("no_property_description", Json.str "hint"),
      ("description_mentions_json", Json.str "off"),
      ("array_of_arrays", Json.str "off"),
      ("property_case_convention", Json.arr [Json.str "off"]),
      ("property_case_collision", Json.str "warning"),
      ("enum_case_convention", Json.arr [Json.str "off"]),
      ("undefined_required_properties", Json.str "error"),
      ("inconsistent_property_type", Json.arr [Json.str "off"])]),
    ("walker", Json.obj [
      ("no_empty_descriptions", Json.str "error"),
      ("has_circular_references", Json.str "warning"),
      ("$ref_siblings", Json.str "off"),
      ("duplicate_sibling_description", Json.str "error"),
      ("incorrect_ref_pattern", Json.str "error")])]),
  ("swagger2", Json.obj [
    ("operations", Json.obj [
      ("no_consumes_for_put_or_post", Json.str "error"),
      ("get_op_has_consumes", Json.str "warning"),
      ("no_produces", Json.str "warning")])]),
  ("oas3", Json.obj [
    ("operations", Json.obj [
      ("no_request_body_name", Json.str "off")]),
    ("responses", Json.obj [
      ("no_success_response_codes", Json.str "warning"),
      ("protocol_switching_and_success_code", Json.str "error"),
      ("no_response_body", Json.str "error"),
      ("ibm_status_code_guidelines", Json.str "off")]),
    ("schemas", Json.obj [
      ("json_or_param_binary_string", Json.str "error")])]),
  ("spectral", Json.obj [
    ("rules", Json.obj [
      ("no-eval-in-markdown", Json.str "error"),
      ("no-script-tags-in-markdown", Json.str "error"),
      ("openapi-tags", Json.str "warning"),
      ("operation-description", Json.str "hint"),
      ("operation-tags", Json.str "warning"),
      ("operation-tag-defined", Json.str "warning"),
      ("path-keys-no-trailing-slash", Json.str "error"),
      ("typed-enum", Json.str "error"),
      ("request-body-object", Json.str "off"),
      ("oas2-api-host", Json.str "error"),
      ("oas2-api-schemes", Json.str "error"),
      ("oas2-host-trailing-slash", Json.str "error"),
      ("oas2-valid-example", Json.str "error"),
      ("oas2-anyOf", Json.str "error"),
      ("oas2-oneOf", Json.str "error"),
      ("oas3-api-servers", Json.str "off"),
      ("oas3-examples-value-or-externalValue", Json.str "error"),
      ("oas3-server-trailing-slash", Json.str "error"),
      ("oas3-valid-example", Json.str "error"),
      ("oas3-valid-schema-example", Json.str "off"),
      ("response-example-provided", Json.str "hint"),
      ("response-error-response-schema", Json.str "off"),
      ("content-entry-contains-schema", Json.str "error"),
      ("content-entry-provided", Json.str "off")])])]

/-- The built-in default configuration object (`source/config.ts`). -/
def defaultConfigJson : Json := Json.obj defaultConfigFields

/-- Sample run used by witnesses: file b.yaml has three warnings and no
error, file a.yaml has one error (the two-file scenario from the spec). -/
def sampleRunA : List (String × Result) :=
  [("b.yaml",
    { version := "3.0",
      warnings := some [⟨[], "w1", "rw", 3⟩, ⟨[], "w2", "rw", 1⟩, ⟨[], "w3", "rw", 1⟩] }),
   ("a.yaml", { version := "3.0", errors := some [⟨[], "e1", "re", 2⟩] })]

/-- A run holding a single hint and no errors or warnings: its
`maxMessageWidth` is 0, so rendering the hint line calls
`" ".repeat(-44)` and throws. -/
def hintOnlyRunA : List (String × Result) :=
  [("api.yaml",
    { version := "3.0",
      hints := some [⟨[], "Parameter objects should have a description.",
        "oas3-parameter-description", 7⟩] })]

/-- A second hint-only run of the same crashing shape. -/
def hintOnlyRunB : List (String × Result) :=
  [("openapi.yaml",
    { version := "3.0",
      hints := some [⟨[], "Operation should have a description.",
        "operation-description", 12⟩] })]

/-! ## Helper lemmas -/

/-- Sorting a bucket permutes it. -/
theorem sortByLine_perm (l : List LintMessage) : (sortByLine l).Perm l :=
  List.perm_insertionSort lineLeP l

/-- Sorting a bucket orders it ascending by line. -/
theorem sortByLine_sorted (l : List LintMessage) :
    List.Sorted lineLeP (sortByLine l) :=
  List.sorted_insertionSort lineLeP l

/-- Stability of the bucket sort: the messages carrying any fixed line
number appear in the sorted bucket in exactly their original relative
order. -/
theorem sortByLine_filter_line (l : List LintMessage) (n : Nat) :
    (sortByLine l).filter (fun m => m.line == n) = l.filter (fun m => m.line == n) := by
  have hmem : ∀ a ∈ l.filter (fun m => m.line == n),
      ∀ b ∈ l.filter (fun m => m.line == n), lineLeP a b := by
    intro a ha b hb
    have ha' := List.of_mem_filter ha
    have hb' := List.of_mem_filter hb
    simp only [beq_iff_eq] at ha' hb'
    simp only [lineLeP, ha', hb', le_refl]
  have hpw := List.pairwise_of_forall_mem_list hmem
  have hsub : List.Sublist (l.filter (fun m => m.line == n)) (sortByLine l) :=
    List.sublist_insertionSort hpw (List.filter_sublist l)
  have hsub2 : List.Sublist (l.filter (fun m => m.line == n))
      ((sortByLine l).filter (fun m => m.line == n)) := by
    have hff := hsub.filter (fun m => m.line == n)
    simpa [List.filter_filter] using hff
  have hperm : List.Perm ((sortByLine l).filter (fun m => m.line == n))
      (l.filter (fun m => m.line == n)) :=
    (sortByLine_perm l).filter _
  exact (hsub2.eq_of_length hperm.length_eq.symm).symm

/-- The comparator preorder coincides with the descending lexicographic
comparison of the severity-count 4-tuples. -/
theorem fileLeP_iff_lexGe (a b : String × NResult) :
    fileLeP a b ↔ lexGe (countsOf a.2) (countsOf b.2) := by
  simp only [fileLeP, fileComparator, lexGe, countsOf]
  split_ifs <;> omega

/-- The statistics array is nonempty whenever some total is positive. -/
theorem statisticsList_ne_nil (hc ic wc ec : Nat) (h : 0 < hc + ic + wc + ec) :
    statisticsList hc ic wc ec ≠ [] := by
  have h4 : 0 < hc ∨ 0 < ic ∨ 0 < wc ∨ 0 < ec := by omega
  intro hnil
  rcases h4 with h1 | h1 | h1 | h1 <;> simp [statisticsList, h1] at hnil

/-- A left fold whose step ignores every element of the list returns
its accumulator. -/
theorem foldl_id {β : Type} (F : β → Nat → Nat) (l : List β)
    (h : ∀ x ∈ l, ∀ a, F x a = a) : ∀ acc, l.foldl (fun a x => F x a) acc = acc := by
  induction l with
  | nil => intro acc; rfl
  | cons x rest ih =>
    intro acc
    rw [List.foldl_cons, h x (List.mem_cons_self x rest) acc]
    exact ih (fun y hy => h y (List.mem_cons_of_mem x hy)) acc

/-- Merging with an empty override leaves every target field in place. -/
theorem mergeInto_nil (af : List (String × Json)) : mergeInto af [] = af := by
  induction af with
  | nil => rfl
  | cons kv rest ih =>
    cases kv with
    | mk k v => simp [mergeInto, lookupF, ih]

/-- Lookup in the target pass of the merge: each target key keeps its
value, overridden keys get the recursive merge. -/
theorem lookupF_mergeInto (af bf : List (String × Json)) (k : String) :
    lookupF (mergeInto af bf) k
      = (lookupF af k).map (fun va =>
          match lookupF bf k with
          | some vb => mergeVal va vb
          | none => va) := by
  induction af with
  | nil => simp [mergeInto, lookupF]
  | cons kv rest ih =>
    cases kv with
    | mk k1 v1 =>
      by_cases hk : k1 = k
      · subst hk
        simp [mergeInto, lookupF]
      · simp [mergeInto, lookupF, hk, ih]

/-- Lookup of a key absent from the target in the extra-keys pass of
the merge. -/
theorem lookupF_filter_notin (af bf : List (String × Json)) (k : String)
    (h : lookupF af k = none) :
    lookupF (bf.filter (fun kv => (lookupF af kv.1).isNone)) k = lookupF bf k := by
  induction bf with
  | nil => rfl
  | cons kv rest ih =>
    cases kv with
    | mk k1 v1 =>
      by_cases hk : k1 = k
      · subst hk
        simp [List.filter_cons, lookupF, h]
      · by_cases hp : (lookupF af k1).isNone
        · simp [List.filter_cons, hp, lookupF, hk, ih]
        · simp [List.filter_cons, hp, lookupF, hk, ih]

/-- First-match lookup distributes over append. -/
theorem lookupF_append (l1 l2 : List (String × Json)) (k : String) :
    lookupF (l1 ++ l2) k
      = match lookupF l1 k with
        | some v => some v
        | none => lookupF l2 k := by
  induction l1 with
  | nil => simp [lookupF]
  | cons kv rest ih =>
    cases kv with
    | mk k1 v1 => by_cases hk : k1 = k <;> simp [lookupF, hk, ih]

/-- Key-by-key characterisation of the deep merge of two objects. -/
theorem get_mergeVal_obj (af bf : List (String × Json)) (k : String) :
    Json.get (mergeVal (Json.obj af) (Json.obj bf)) k
      = match lookupF af k, lookupF bf k with
        | some va, some vb => some (mergeVal va vb)
        | some va, none => some va
        | none, some vb => some vb
        | none, none => none := by
  show lookupF (mergeInto af bf ++ bf.filter (fun kv => (lookupF af kv.1).isNone)) k = _
  rw [lookupF_append, lookupF_mergeInto]
  cases haf : lookupF af k with
  | some va => cases hbf : lookupF bf k <;> simp [hbf]
  | none =>
    simp only [Option.map_none']
    rw [lookupF_filter_notin af bf k haf]
    cases hbf : lookupF bf k <;> simp

/-- After normalisation of a run whose results all have absent buckets,
every bucket is empty. -/
theorem normalizeAll_all_empty (results : List (String × Result))
    (h : ∀ p ∈ results, p.2.errors = none ∧ p.2.warnings = none
      ∧ p.2.infos = none ∧ p.2.hints = none) :
    ∀ p ∈ normalizeAll results,
      p.2.errors = [] ∧ p.2.warnings = [] ∧ p.2.infos = [] ∧ p.2.hints = [] := by
  intro p hp
  simp only [normalizeAll, List.mem_map] at hp
  obtain ⟨q, hq, rfl⟩ := hp
  obtain ⟨h1, h2, h3, h4⟩ := h q hq
  simp [normalizeResult, h1, h2, h3, h4, sortByLine]

/-! ## Claims -/

/-- C1, counterexample: with a callback that rejects without moving the
process, `runInDirectory "/b" callback` started from working directory
"/a" finishes with the working directory still "/b" — the original
directory is not restored on the rejection path, refuting the claim
that the change is released on all exit paths. -/
theorem runInDirectory_not_restored_on_reject :
    (runInDirectory (α := Nat) "/b" (fun s => (Except.error "boom", s)) "/a").2 ≠ "/a" := by
  decide

/-- C1, amended: after `runInDirectory cwd callback` completes with the
callback resolving, the process working directory equals the directory
current before the call; when the callback rejects, the error
propagates and no restore happens. -/
theorem runInDirectory_restores_on_resolve {α : Type} (cwd state : String)
    (callback : String → Except String α × String) (v : α) (s2 : String)
    (hok : callback cwd = (Except.ok v, s2)) :
    runInDirectory cwd callback state = (Except.ok v, state) := by
  simp [runInDirectory, hok]

/-- C1, witness for the amended theorem at a concrete resolving callback. -/
theorem runInDirectory_restores_on_resolve_witness :
    runInDirectory (α := Nat) "/b" (fun s => (Except.ok 0, s)) "/a" = (Except.ok 0, "/a") :=
  runInDirectory_restores_on_resolve "/b" "/a" (fun s => (Except.ok 0, s)) 0 "/b" rfl

/-- C2, counterexample: `formatResults` does not leave its input
Results unchanged — the in-place bucket sort reorders a present errors
array whose messages were not already ascending by line. -/
theorem formatResults_mutates_input :
    formatResultsEffect
        [("api.yaml", { version := "3.0",
                        errors := some [⟨[], "b", "r2", 5⟩, ⟨[], "a", "r1", 1⟩] })]
      ≠ [("api.yaml", { version := "3.0",
                        errors := some [⟨[], "b", "r2", 5⟩, ⟨[], "a", "r1", 1⟩] })] := by
  decide

/-- C2, amended: after `formatResults` returns, each input Result holds
the same messages, but each present severity array has been sorted in
place ascending by line (a permutation of its previous contents);
absent fields stay absent and `version` is unchanged, and the list
structure of the run is untouched. -/
theorem formatResults_effect_sorted_permutation :
    (∀ l : List LintMessage,
      (sortByLine l).Perm l ∧ List.Sorted lineLeP (sortByLine l))
    ∧ (∀ r : Result,
        (effectResult r).version = r.version
        ∧ (effectResult r).errors = r.errors.map sortByLine
        ∧ (effectResult r).warnings = r.warnings.map sortByLine
        ∧ (effectResult r).infos = r.infos.map sortByLine
        ∧ (effectResult r).hints = r.hints.map sortByLine)
    ∧ ∀ results : List (String × Result),
        formatResultsEffect results = results.map (fun p => (p.1, effectResult p.2)) :=
  ⟨fun l => ⟨sortByLine_perm l, sortByLine_sorted l⟩,
   fun _ => ⟨rfl, rfl, rfl, rfl, rfl⟩,
   fun _ => rfl⟩

/-- C3: a parsed document with neither a truthy `openapi` field nor a
`swagger` field strictly equal to "2.0" makes `lintFile` fail with the
descriptor-missing error (a fixed message distinct from the parse
error's); the CLI logs that message in red when the file was explicitly
named (`isAutoDetectedFiles = false`) and logs nothing in auto-discovery
mode, excluding the file from the results either way. -/
theorem lintFile_descriptor_missing_behavior (data : Json) (file : String)
    (runEngines : Json → Except String Result)
    (h1 : truthy (Json.get data "openapi") = false)
    (h2 : strictEqString (Json.get data "swagger") "2.0" = false) :
    lintFileAfterParse data runEngines = Except.error descriptorMissingMessage
    ∧ descriptorMissingMessage ≠ unableToParseMessage
    ∧ cliProcessFile false file (lintFileAfterParse data runEngines)
        = (some (chalkRed descriptorMissingMessage), none)
    ∧ cliProcessFile true file (lintFileAfterParse data runEngines) = (none, none) := by
  have he : lintFileAfterParse data runEngines = Except.error descriptorMissingMessage := by
    simp [lintFileAfterParse, h1, h2]
  refine ⟨he, by decide, ?_, ?_⟩
  · rw [he]; simp [cliProcessFile]
  · rw [he]; simp [cliProcessFile]

/-- C3, witness at a concrete document carrying only a `title` field. -/
theorem lintFile_descriptor_missing_behavior_witness :
    lintFileAfterParse (Json.obj [("title", Json.str "t")])
        (fun _ => Except.error "engine failure")
      = Except.error descriptorMissingMessage
    ∧ descriptorMissingMessage ≠ unableToParseMessage
    ∧ cliProcessFile false "api.yaml"
        (lintFileAfterParse (Json.obj [("title", Json.str "t")])
          (fun _ => Except.error "engine failure"))
      = (some (chalkRed descriptorMissingMessage), none)
    ∧ cliProcessFile true "api.yaml"
        (lintFileAfterParse (Json.obj [("title", Json.str "t")])
          (fun _ => Except.error "engine failure"))
      = (none, none) :=
  lintFile_descriptor_missing_behavior (Json.obj [("title", Json.str "t")]) "api.yaml"
    (fun _ => Except.error "engine failure") (by decide) (by decide)

/-- C4, counterexample: `hintOnlyRunA` carries one message, yet
`formatResults` throws a `RangeError` instead of producing output, so
the claim's rendered body — over which it asserts the block order —
does not exist for every run with at least one message. -/
theorem formatResults_no_output_on_hint_only_run :
    0 < totalMessages (normalizeAll hintOnlyRunA)
    ∧ formatResults "" hintOnlyRunA = Except.error rangeErrorMessage :=
  ⟨by decide, rfl⟩

/-- C4, amended: for every run with at least one message, the per-file
blocks are arranged in descending lexicographic order of their
(errors, warnings, infos, hints) count 4-tuples — more errors first,
ties broken by more warnings, then more infos, then more hints (full
ties keep their relative input order) — and whenever `formatResults`
renders without throwing, the body joins the blocks' renderings in
exactly that sorted order (rendering throws a `RangeError`, and no body
exists, when some hint or info message is wider than every error and
warning message). -/
theorem formatResults_blocks_descending_lex (ttyEscape : String)
    (results : List (String × Result))
    (h : 0 < totalMessages (normalizeAll results)) :
    List.Pairwise (fun p q => lexGe (countsOf p.2) (countsOf q.2))
      (sortFiles (normalizeAll results))
    ∧ formatBody ttyEscape (normalizeAll results)
        = ((sortFiles (normalizeAll results)).mapM
            (blockString (maxLineWidthOf (normalizeAll results))
              (maxMessageWidthOf (normalizeAll results)))).map
            (fun blocks => "\n" ++ ttyEscape ++ String.intercalate "\n" blocks) := by
  constructor
  · have hs : List.Sorted fileLeP (sortFiles (normalizeAll results)) :=
      List.sorted_insertionSort fileLeP (normalizeAll results)
    exact List.Pairwise.imp (fun hab => (fileLeP_iff_lexGe _ _).mp hab) hs
  · cases hm : (sortFiles (normalizeAll results)).mapM
        (blockString (maxLineWidthOf (normalizeAll results))
          (maxMessageWidthOf (normalizeAll results))) with
    | error e =>
      simp only [formatBody]
      rw [hm]
      rfl
    | ok blocks =>
      simp only [formatBody]
      rw [hm]
      rfl

/-- C4, witness on the two-file sample run. -/
theorem formatResults_blocks_descending_lex_witness :
    List.Pairwise (fun p q => lexGe (countsOf p.2) (countsOf q.2))
      (sortFiles (normalizeAll sampleRunA)) :=
  (formatResults_blocks_descending_lex "" sampleRunA (by decide)).1

/-- C5: each file's block that `formatResults` actually prints lists
its message lines in the fixed severity order hints, infos, warnings,
errors — whenever the four buckets render without throwing, the block
is the header followed by the rendered hint lines, then info lines,
then warning lines, then error lines — and within each severity bucket
the messages are sorted ascending by line number by a stable sort:
messages sharing a line number keep the relative order they had in the
bucket before formatting. -/
theorem formatResults_block_severity_order_and_stable_sort
    (f : String) (r0 : Result) (w1 w2 : Nat) (n : Nat) :
    blockString w1 w2 (f, normalizeResult r0)
      = (blockLines w1 w2 (normalizeResult r0)).map
          (fun lines => chalkUnderline f ++ "\n" ++ String.intercalate "\n" lines ++ "\n")
    ∧ (∀ hintLines infoLines warningLines errorLines : List String,
        renderBucket "info" w1 w2 (normalizeResult r0).hints = Except.ok hintLines →
        renderBucket "info" w1 w2 (normalizeResult r0).infos = Except.ok infoLines →
        renderBucket "warning" w1 w2 (normalizeResult r0).warnings = Except.ok warningLines →
        renderBucket "error" w1 w2 (normalizeResult r0).errors = Except.ok errorLines →
        blockLines w1 w2 (normalizeResult r0)
          = Except.ok (hintLines ++ infoLines ++ warningLines ++ errorLines))
    ∧ List.Sorted lineLeP (normalizeResult r0).hints
    ∧ List.Sorted lineLeP (normalizeResult r0).infos
    ∧ List.Sorted lineLeP (normalizeResult r0).warnings
    ∧ List.Sorted lineLeP (normalizeResult r0).errors
    ∧ (normalizeResult r0).hints.filter (fun m => m.line == n)
        = (r0.hints.getD []).filter (fun m => m.line == n)
    ∧ (normalizeResult r0).infos.filter (fun m => m.line == n)
        = (r0.infos.getD []).filter (fun m => m.line == n)
    ∧ (normalizeResult r0).warnings.filter (fun m => m.line == n)
        = (r0.warnings.getD []).filter (fun m => m.line == n)
    ∧ (normalizeResult r0).errors.filter (fun m => m.line == n)
        = (r0.errors.getD []).filter (fun m => m.line == n) := by
  refine ⟨?_, ?_,
    sortByLine_sorted _, sortByLine_sorted _, sortByLine_sorted _, sortByLine_sorted _,
    sortByLine_filter_line _ n, sortByLine_filter_line _ n,
    sortByLine_filter_line _ n, sortByLine_filter_line _ n⟩
  · cases hbl : blockLines w1 w2 (normalizeResult r0) with
    | error e => simp [blockString, hbl, Except.map]
    | ok lines => simp [blockString, hbl, Except.map]
  · intro hintLines infoLines warningLines errorLines h1 h2 h3 h4
    simp only [blockLines, h1, h2, h3, h4]

/-- C5, witness: a one-hint, one-error result at widths 1 and 1 renders
its block lines with the hint line first and the error line last. -/
theorem formatResults_block_severity_order_and_stable_sort_witness :
    blockLines 1 1
        (normalizeResult
          { version := "3.0", errors := some [⟨[], "e", "re", 1⟩],
            hints := some [⟨[], "h", "r", 2⟩] })
      = Except.ok (["\x1b[34mℹ\x1b[39m \x1b[90m2\x1b[39m h \x1b[90mr\x1b[39m"]
          ++ [] ++ []
          ++ ["\x1b[31m✖\x1b[39m \x1b[90m1\x1b[39m e \x1b[90mre\x1b[39m"]) :=
  (formatResults_block_severity_order_and_stable_sort "api.yaml"
      { version := "3.0", errors := some [⟨[], "e", "re", 1⟩],
        hints := some [⟨[], "h", "r", 2⟩] } 1 1 0).2.1
    ["\x1b[34mℹ\x1b[39m \x1b[90m2\x1b[39m h \x1b[90mr\x1b[39m"] [] []
    ["\x1b[31m✖\x1b[39m \x1b[90m1\x1b[39m e \x1b[90mre\x1b[39m"]
    rfl rfl rfl rfl

/-- C6: a run whose aggregate message total is zero renders as the
empty string — no header, no per-file blocks, no statistics; the early
return precedes all rendering, so no exception can occur either. -/
theorem formatResults_empty_when_no_messages (ttyEscape : String)
    (results : List (String × Result))
    (h : totalMessages (normalizeAll results) = 0) :
    formatResults ttyEscape results = Except.ok "" := by
  simp [formatResults, h]

/-- C6, witness: a run containing one message-free result renders empty. -/
theorem formatResults_empty_when_no_messages_witness :
    formatResults "" [("api.yaml", { version := "3.0" })] = Except.ok "" :=
  formatResults_empty_when_no_messages "" [("api.yaml", { version := "3.0" })] (by decide)

/-- C7, counterexample: `hintOnlyRunB` has one message, but
`formatResults` throws a `RangeError` while rendering the hint line
(its width exceeds `maxMessageWidth`, which only error and warning
messages feed), so the run produces no output and in particular no
statistics section — refuting the claim for every run with at least
one message. -/
theorem formatResults_throws_on_hint_only_run :
    0 < totalMessages (normalizeAll hintOnlyRunB)
    ∧ formatResults "" hintOnlyRunB = Except.error rangeErrorMessage :=
  ⟨by decide, rfl⟩

/-- C7, amended: with at least one message, `formatResults` appends the
statistics section to the rendered body when rendering succeeds — the
output is the body followed by the nonempty statistics — and propagates
the `RangeError` (producing no statistics) when rendering throws; the
statistics array lists, in the fixed order hints, infos, warnings,
errors, exactly the nonzero run-wide totals, each severity word
singular for a count of one and plural otherwise. -/
theorem formatResults_statistics_section (ttyEscape : String)
    (results : List (String × Result))
    (h : 0 < totalMessages (normalizeAll results)) :
    formatResults ttyEscape results
      = (formatBody ttyEscape (normalizeAll results)).map
          (fun body => body ++ "\n"
            ++ String.intercalate "\n"
              (statisticsList (totalHints (normalizeAll results))
                (totalInfos (normalizeAll results))
                (totalWarnings (normalizeAll results))
                (totalErrors (normalizeAll results))))
    ∧ statisticsList (totalHints (normalizeAll results))
        (totalInfos (normalizeAll results))
        (totalWarnings (normalizeAll results))
        (totalErrors (normalizeAll results)) ≠ []
    ∧ ∀ hc ic wc ec : Nat,
        statisticsList hc ic wc ec
          = (if 0 < hc then
              [chalkCyan (toString hc ++ " " ++ (if hc = 1 then "hint" else "hints"))]
            else [])
            ++ (if 0 < ic then
              [chalkCyan (toString ic ++ " " ++ (if ic = 1 then "info" else "infos"))]
            else [])
            ++ (if 0 < wc then
              [chalkYellow (toString wc ++ " " ++ (if wc = 1 then "warning" else "warnings"))]
            else [])
            ++ (if 0 < ec then
              [chalkRed (toString ec ++ " " ++ (if ec = 1 then "error" else "errors"))]
            else []) := by
  have hsum : 0 < totalHints (normalizeAll results) + totalInfos (normalizeAll results)
      + totalWarnings (normalizeAll results) + totalErrors (normalizeAll results) := by
    simp only [totalMessages] at h
    omega
  have hne := statisticsList_ne_nil _ _ _ _ hsum
  refine ⟨?_, hne, ?_⟩
  · have hempty : (statisticsList (totalHints (normalizeAll results))
        (totalInfos (normalizeAll results)) (totalWarnings (normalizeAll results))
        (totalErrors (normalizeAll results))).isEmpty = false := by
      simpa [List.isEmpty_iff] using hne
    simp only [formatResults]
    rw [if_neg (by omega)]
    cases hfb : formatBody ttyEscape (normalizeAll results) with
    | error e => simp [Except.map]
    | ok body => simp [Except.map, hempty]
  · intro hc ic wc ec
    have e1 : "hint" ++ "s" = "hints" := rfl
    have e2 : "info" ++ "s" = "infos" := rfl
    have e3 : "warning" ++ "s" = "warnings" := rfl
    have e4 : "error" ++ "s" = "errors" := rfl
    simp [statisticsList, plur, e1, e2, e3, e4]

/-- C7, witness on the two-file sample run. -/
theorem formatResults_statistics_section_witness :
    statisticsList (totalHints (normalizeAll sampleRunA))
      (totalInfos (normalizeAll sampleRunA))
      (totalWarnings (normalizeAll sampleRunA))
      (totalErrors (normalizeAll sampleRunA)) ≠ [] :=
  (formatResults_statistics_section "" sampleRunA (by decide)).2.1

/-- C8: deep-merging the built-in default configuration with an empty
override returns the default configuration unchanged, and in general a
key absent from the override keeps its value from the target while a
key present on both sides is merged recursively (leaf-by-leaf, not
whole-subtree replacement). -/
theorem defaultConfig_deep_merge :
    mergeVal defaultConfigJson (Json.obj []) = defaultConfigJson
    ∧ (∀ (af bf : List (String × Json)) (k : String),
        lookupF bf k = none →
        Json.get (mergeVal (Json.obj af) (Json.obj bf)) k = lookupF af k)
    ∧ (∀ (af bf : List (String × Json)) (k : String) (va vb : Json),
        lookupF af k = some va → lookupF bf k = some vb →
        Json.get (mergeVal (Json.obj af) (Json.obj bf)) k = some (mergeVal va vb)) := by
  refine ⟨rfl, ?_, ?_⟩
  · intro af bf k hbf
    rw [get_mergeVal_obj]
    cases haf : lookupF af k <;> simp [haf, hbf]
  · intro af bf k va vb haf hbf
    rw [get_mergeVal_obj]
    simp [haf, hbf]

/-- C8, witness: a key absent from the override keeps its default value. -/
theorem defaultConfig_deep_merge_witness :
    Json.get (mergeVal (Json.obj [("a", Json.num 1)]) (Json.obj [("b", Json.num 2)])) "a"
      = lookupF [("a", Json.num 1)] "a" :=
  defaultConfig_deep_merge.2.1 [("a", Json.num 1)] [("b", Json.num 2)] "a" rfl

/-- C9: the CLI exits with status 2 when the configuration is invalid
or when no file was successfully linted, with status 1 when some
successfully linted file carries at least one error message, and with
status 0 otherwise. -/
theorem cliExitCode_policy (configInvalid : Bool) (results : List (String × Result)) :
    ((configInvalid = true ∨ results = []) → cliExitCode configInvalid results = 2)
    ∧ (configInvalid = false → results ≠ [] →
        ((∃ p ∈ results, 0 < (p.2.errors.getD []).length) →
          cliExitCode configInvalid results = 1)
        ∧ ((∀ p ∈ results, (p.2.errors.getD []).length = 0) →
          cliExitCode configInvalid results = 0)) := by
  refine ⟨?_, ?_⟩
  · rintro (h | h)
    · simp [cliExitCode, h]
    · subst h
      cases configInvalid <;> simp [cliExitCode]
  · rintro h hne
    subst h
    have hlen : ¬results.length = 0 := by
      simpa [List.length_eq_zero] using hne
    refine ⟨?_, ?_⟩
    · rintro ⟨p, hp, hpos⟩
      have hany : results.any (fun q => decide (0 < (q.2.errors.getD []).length)) = true := by
        simp only [List.any_eq_true, decide_eq_true_eq]
        exact ⟨p, hp, hpos⟩
      simp [cliExitCode, hlen, hany]
    · intro hall
      have hany : results.any (fun q => decide (0 < (q.2.errors.getD []).length)) = false := by
        simp only [List.any_eq_false, decide_eq_true_eq]
        intro p hp
        simp [hall p hp]
      simp [cliExitCode, hlen, hany]

/-- C9, witness: one linted file with one error gives exit status 1. -/
theorem cliExitCode_policy_witness :
    cliExitCode false [("f.yaml", { version := "3.0", errors := some [⟨[], "m", "r", 0⟩] })] = 1 :=
  ((cliExitCode_policy false
      [("f.yaml", { version := "3.0", errors := some [⟨[], "m", "r", 0⟩] })]).2
    rfl (by decide)).1 (by decide)

/-- C10: `formatResults` is total on Results with absent severity
fields: an absent bucket is treated as empty, contributing zero to each
run-wide total and zero to both column-width computations, and a run
made only of such Results renders as the empty string (via the
zero-total early return, clear of the rendering path and its possible
`RangeError`). -/
theorem formatResults_absent_buckets (ttyEscape : String)
    (results : List (String × Result))
    (h : ∀ p ∈ results, p.2.errors = none ∧ p.2.warnings = none
      ∧ p.2.infos = none ∧ p.2.hints = none) :
    (∀ r : Result, r.errors = none → (normalizeResult r).errors = [])
    ∧ (∀ r : Result, r.warnings = none → (normalizeResult r).warnings = [])
    ∧ (∀ r : Result, r.infos = none → (normalizeResult r).infos = [])
    ∧ (∀ r : Result, r.hints = none → (normalizeResult r).hints = [])
    ∧ totalMessages (normalizeAll results) = 0
    ∧ maxLineWidthOf (normalizeAll results) = 0
    ∧ maxMessageWidthOf (normalizeAll results) = 0
    ∧ formatResults ttyEscape results = Except.ok "" := by
  have hz := normalizeAll_all_empty results h
  have hE : totalErrors (normalizeAll results) = 0 := by
    show (normalizeAll results).foldl (fun acc p => acc + p.2.errors.length) 0 = 0
    refine foldl_id (fun (p : String × NResult) (a : Nat) => a + p.2.errors.length) _ ?_ 0
    intro p hp a
    obtain ⟨h1, -, -, -⟩ := hz p hp
    simp [h1]
  have hW : totalWarnings (normalizeAll results) = 0 := by
    show (normalizeAll results).foldl (fun acc p => acc + p.2.warnings.length) 0 = 0
    refine foldl_id (fun (p : String × NResult) (a : Nat) => a + p.2.warnings.length) _ ?_ 0
    intro p hp a
    obtain ⟨-, h2, -, -⟩ := hz p hp
    simp [h2]
  have hI : totalInfos (normalizeAll results) = 0 := by
    show (normalizeAll results).foldl (fun acc p => acc + p.2.infos.length) 0 = 0
    refine foldl_id (fun (p : String × NResult) (a : Nat) => a + p.2.infos.length) _ ?_ 0
    intro p hp a
    obtain ⟨-, -, h3, -⟩ := hz p hp
    simp [h3]
  have hH : totalHints (normalizeAll results) = 0 := by
    show (normalizeAll results).foldl (fun acc p => acc + p.2.hints.length) 0 = 0
    refine foldl_id (fun (p : String × NResult) (a : Nat) => a + p.2.hints.length) _ ?_ 0
    intro p hp a
    obtain ⟨-, -, -, h4⟩ := hz p hp
    simp [h4]
  have htot : totalMessages (normalizeAll results) = 0 := by
    simp [totalMessages, hE, hW, hI, hH]
  refine ⟨?_, ?_, ?_, ?_, htot, ?_, ?_, ?_⟩
  · intro r hr
    simp [normalizeResult, hr, sortByLine]
  · intro r hr
    simp [normalizeResult, hr, sortByLine]
  · intro r hr
    simp [normalizeResult, hr, sortByLine]
  · intro r hr
    simp [normalizeResult, hr, sortByLine]
  · show (normalizeAll results).foldl
        (fun acc p =>
          Nat.max
            (Nat.max
              (Nat.max (Nat.max (lineWidthOf p.2.errors) (lineWidthOf p.2.warnings))
                (lineWidthOf p.2.infos))
              (lineWidthOf p.2.hints))
            acc)
        0 = 0
    refine foldl_id
      (fun (p : String × NResult) (a : Nat) =>
        Nat.max
          (Nat.max
            (Nat.max (Nat.max (lineWidthOf p.2.errors) (lineWidthOf p.2.warnings))
              (lineWidthOf p.2.infos))
            (lineWidthOf p.2.hints))
          a) _ ?_ 0
    intro p hp a
    obtain ⟨h1, h2, h3, h4⟩ := hz p hp
    simp [h1, h2, h3, h4, lineWidthOf]
  · show (normalizeAll results).foldl
        (fun acc p =>
          (p.2.errors ++ p.2.warnings).foldl
            (fun a m => Nat.max (stringWidth m.message) a) acc)
        0 = 0
    refine foldl_id
      (fun (p : String × NResult) (a : Nat) =>
        (p.2.errors ++ p.2.warnings).foldl
          (fun x m => Nat.max (stringWidth m.message) x) a) _ ?_ 0
    intro p hp a
    obtain ⟨h1, h2, -, -⟩ := hz p hp
    simp [h1, h2]
  · simp [formatResults, htot]

/-- C10, witness: a run of two Results with every bucket absent. -/
theorem formatResults_absent_buckets_witness :
    formatResults "" [("a.json", { version := "2.0" }), ("b.json", { version := "3.0" })]
      = Except.ok "" :=
  (formatResults_absent_buckets ""
      [("a.json", { version := "2.0" }), ("b.json", { version := "3.0" })]
      (by decide)).2.2.2.2.2.2.2

end Pva
